import Mathlib

/-!
Verification of the urban-sight safety-scoring backend.

Shallow embedding of the Python sources (`backend/models.py`,
`backend/personalization.py`, `backend/engine.py`, `backend/main.py`)
over exact rational arithmetic (Python floats are modelled as `ℚ`;
the route-geometry code, which uses `math.sin`/`math.sqrt`, is
modelled over `ℝ`).  The model/scaler/explainer artifacts are
modelled as an optional bundle of abstract functions: `none` is the
degraded fallback mode entered when `joblib.load` fails at startup.
-/

namespace UrbanSight

/-- `backend/models.py` — `LocationFeatures`, with its pydantic defaults. -/
structure LocationFeatures where
  lat : ℚ
  lng : ℚ
  hour : ℤ := -1
  day_of_week : ℤ := -1
  lighting_score : ℚ := 5
  crowd_density : ℚ := 1/2
  historical_crime_index : ℚ := 3/10
  police_dist_km : ℚ := 3/2
  is_isolated : ℤ := 0
  near_transit : ℤ := 0
deriving DecidableEq

/-- `backend/models.py` — `UserProfile`, with its pydantic defaults. -/
structure UserProfile where
  mode : String := "walking"
  group_size : ℤ := 1
  is_night : Bool := false
  gender_sensitive : Bool := false
deriving DecidableEq

/-- `backend/models.py` — `AnalyzeRequest`. -/
structure AnalyzeRequest where
  location : LocationFeatures
  profile : UserProfile
deriving DecidableEq

/-- Python `round(x, 4)`: round to 4 decimal places, ties to even
(banker's rounding, the behaviour of Python 3 `round`). -/
def round4 (x : ℚ) : ℚ :=
  let y : ℚ := x * 10000
  let n : ℤ := ⌊y⌋
  let frac : ℚ := y - n
  let r : ℤ :=
    if frac < 1/2 then n
    else if 1/2 < frac then n + 1
    else if n % 2 = 0 then n else n + 1
  (r : ℚ) / 10000

/-- The result record of `apply_profile_weights`. -/
structure AdjustResult where
  adjusted_score : ℚ
  adjustments_applied : List String
deriving DecidableEq

/-- `backend/personalization.py` — `apply_profile_weights`, translated
statement by statement: seven sequential conditional updates of a running
`(score, adjustments_applied)` state, then clip to `[0,1]` and round. -/
def apply_profile_weights (base_score : ℚ) (profile : UserProfile)
    (features : LocationFeatures) : AdjustResult :=
  let lighting := features.lighting_score
  let is_isolated := features.is_isolated
  let st : ℚ × List String := (base_score, [])
  let st := if (profile.mode == "walking") && profile.is_night then
      (st.1 * 0.75, st.2 ++ ["Walking at night reduces safety score."]) else st
  let st := if (profile.mode == "cycling") && profile.is_night then
      (st.1 * 0.85, st.2 ++ ["Cycling at night reduces safety score."]) else st
  let st := if profile.mode == "driving" then
      (min (st.1 * 1.05) 1.0, st.2 ++ ["Driving generally increases safety."]) else st
  let st := if decide (4 ≤ profile.group_size) then
      (min (st.1 + 0.08) 1.0, st.2 ++ ["Large group size enhances safety."]) else st
  let st := if (profile.group_size == 1) && profile.is_night then
      (st.1 * 0.90, st.2 ++ ["Traveling alone at night reduces safety."]) else st
  let st := if profile.gender_sensitive && decide (lighting < 4) then
      (st.1 * 0.88, st.2 ++ ["Gender sensitive profile penalty for poor lighting."]) else st
  let st := if profile.gender_sensitive && (is_isolated == 1) then
      (st.1 * 0.85, st.2 ++ ["Gender sensitive profile penalty for isolated areas."]) else st
  let score := max 0.0 (min st.1 1.0)
  { adjusted_score := round4 score, adjustments_applied := st.2 }

/-- Trigger condition of personalization rule `i` (spec §4.4, rules 1–7). -/
def ruleCond : ℕ → UserProfile → LocationFeatures → Bool
  | 1, p, _ => (p.mode == "walking") && p.is_night
  | 2, p, _ => (p.mode == "cycling") && p.is_night
  | 3, p, _ => p.mode == "driving"
  | 4, p, _ => decide (4 ≤ p.group_size)
  | 5, p, _ => (p.group_size == 1) && p.is_night
  | 6, p, f => p.gender_sensitive && decide (f.lighting_score < 4)
  | 7, p, f => p.gender_sensitive && (f.is_isolated == 1)
  | _, _, _ => false

/-- Score update of personalization rule `i` (spec §4.4, rules 1–7). -/
def ruleStep : ℕ → ℚ → ℚ
  | 1, s => s * 0.75
  | 2, s => s * 0.85
  | 3, s => min (s * 1.05) 1.0
  | 4, s => min (s + 0.08) 1.0
  | 5, s => s * 0.90
  | 6, s => s * 0.88
  | 7, s => s * 0.85
  | _, s => s

/-- Fixed message appended by personalization rule `i`. -/
def ruleMsg : ℕ → String
  | 1 => "Walking at night reduces safety score."
  | 2 => "Cycling at night reduces safety score."
  | 3 => "Driving generally increases safety."
  | 4 => "Large group size enhances safety."
  | 5 => "Traveling alone at night reduces safety."
  | 6 => "Gender sensitive profile penalty for poor lighting."
  | 7 => "Gender sensitive profile penalty for isolated areas."
  | _ => ""

/-- Spec-side reading of §4.4: evaluate rules 1–7 in that fixed order on a
running score, appending each triggered rule's message in evaluation order. -/
def runRules (base_score : ℚ) (p : UserProfile) (f : LocationFeatures) :
    ℚ × List String :=
  [1, 2, 3, 4, 5, 6, 7].foldl
    (fun st i => if ruleCond i p f then (ruleStep i st.1, st.2 ++ [ruleMsg i]) else st)
    (base_score, [])

set_option maxHeartbeats 1000000 in
lemma apply_profile_weights_eq (b : ℚ) (p : UserProfile) (f : LocationFeatures) :
    apply_profile_weights b p f =
      { adjusted_score := round4 (max 0.0 (min (runRules b p f).1 1.0)),
        adjustments_applied := (runRules b p f).2 } := by
  unfold apply_profile_weights runRules
  simp only [List.foldl, ruleCond, ruleStep, ruleMsg]

lemma round4_mem_unit {x : ℚ} (h0 : 0 ≤ x) (h1 : x ≤ 1) :
    0 ≤ round4 x ∧ round4 x ≤ 1 := by
  unfold round4
  set y : ℚ := x * 10000 with hy
  have hy0 : 0 ≤ y := by positivity
  have hy1 : y ≤ 10000 := by
    rw [hy]; nlinarith
  have hn0 : (0 : ℤ) ≤ ⌊y⌋ := by
    exact_mod_cast Int.le_floor.mpr (by exact_mod_cast hy0)
  have hn1 : ⌊y⌋ ≤ 10000 := by
    have : ⌊y⌋ ≤ ⌊(10000 : ℚ)⌋ := Int.floor_le_floor hy1
    simpa using this
  set n : ℤ := ⌊y⌋ with hn
  set frac : ℚ := y - n with hfrac
  have hr : ∀ r : ℤ,
      (r = if frac < 1/2 then n
        else if 1/2 < frac then n + 1
        else if n % 2 = 0 then n else n + 1) →
      0 ≤ (r : ℚ) / 10000 ∧ (r : ℚ) / 10000 ≤ 1 := by
    intro r hrdef
    have hr0 : 0 ≤ r := by
      rcases le_or_lt r n with h | h
      · subst hrdef
        split_ifs <;> omega
      · omega
    have hr1 : r ≤ 10000 := by
      by_cases hcase : n = 10000
      · -- then y = 10000 exactly, so frac = 0 and the first branch is taken
        have hyeq : y = 10000 := by
          have hle : (n : ℚ) ≤ y := Int.floor_le y
          rw [hcase] at hle
          push_cast at hle
          linarith
        have hfrac0 : frac = 0 := by
          rw [hfrac, hyeq, hcase]; norm_num
        subst hrdef
        rw [hfrac0] at *
        simp only [hcase]
        norm_num
      · have hn9999 : n ≤ 9999 := by omega
        subst hrdef
        split_ifs <;> omega
    constructor
    · positivity
    · rw [div_le_one (by norm_num)]
      exact_mod_cast hr1
  exact hr _ rfl

lemma round4_clamp_mem (x : ℚ) :
    0 ≤ round4 (max 0.0 (min x 1.0)) ∧ round4 (max 0.0 (min x 1.0)) ≤ 1 := by
  refine round4_mem_unit ?_ ?_
  · exact le_trans (by norm_num) (le_max_left (0.0 : ℚ) _)
  · exact max_le (by norm_num) (le_trans (min_le_right _ _) (by norm_num))

/-- C1: the personalization engine evaluates exactly the seven rules of
§4.4 in the fixed order 1–7 on a running score (walking-at-night ×0.75,
cycling-at-night ×0.85, driving min(×1.05,1), group ≥ 4 min(+0.08,1),
alone-at-night ×0.90, gender-sensitive with lighting < 4 ×0.88,
gender-sensitive in an isolated area ×0.85), and `adjustments_applied`
contains exactly each triggered rule's fixed message in evaluation order;
in particular an input triggering exactly rules {1,5,6} yields the three
corresponding messages in that exact order. -/
theorem c1_personalization_rule_order (b : ℚ) (p : UserProfile) (f : LocationFeatures) :
    apply_profile_weights b p f =
      { adjusted_score := round4 (max 0.0 (min (runRules b p f).1 1.0)),
        adjustments_applied := (runRules b p f).2 } ∧
    ((ruleCond 1 p f = true ∧ ruleCond 5 p f = true ∧ ruleCond 6 p f = true ∧
      ruleCond 2 p f = false ∧ ruleCond 3 p f = false ∧ ruleCond 4 p f = false ∧
      ruleCond 7 p f = false) →
      (apply_profile_weights b p f).adjustments_applied =
        [ruleMsg 1, ruleMsg 5, ruleMsg 6]) := by
  refine ⟨apply_profile_weights_eq b p f, ?_⟩
  rintro ⟨h1, h5, h6, h2, h3, h4, h7⟩
  rw [apply_profile_weights_eq]
  simp [runRules, h1, h2, h3, h4, h5, h6, h7]

/-- A concrete profile used to exercise personalization rules {1,5,6}:
walking alone at night, gender-sensitive. -/
def soloNightWalker : UserProfile :=
  { mode := "walking", group_size := 1, is_night := true, gender_sensitive := true }

/-- A concrete feature vector with poor lighting and no isolation. -/
def dimLitSpot : LocationFeatures :=
  { lat := 0, lng := 0, lighting_score := 3 }

theorem c1_personalization_rule_order_witness :
    (ruleCond 1 soloNightWalker dimLitSpot = true ∧
     ruleCond 5 soloNightWalker dimLitSpot = true ∧
     ruleCond 6 soloNightWalker dimLitSpot = true ∧
     ruleCond 2 soloNightWalker dimLitSpot = false ∧
     ruleCond 3 soloNightWalker dimLitSpot = false ∧
     ruleCond 4 soloNightWalker dimLitSpot = false ∧
     ruleCond 7 soloNightWalker dimLitSpot = false) ∧
    (apply_profile_weights (4/5) soloNightWalker dimLitSpot).adjustments_applied =
      [ruleMsg 1, ruleMsg 5, ruleMsg 6] :=
  ⟨by decide, (c1_personalization_rule_order (4/5) soloNightWalker dimLitSpot).2 (by decide)⟩

/-- C2: for every real-valued base score (including values outside `[0,1]`),
every profile and every feature vector, the `adjusted_score` returned by
`apply_profile_weights` lies in `[0,1]`: the running score is clamped to
`[0,1]` and then rounded to 4 decimal places. -/
theorem c2_adjusted_score_in_unit_interval (b : ℚ) (p : UserProfile)
    (f : LocationFeatures) :
    0 ≤ (apply_profile_weights b p f).adjusted_score ∧
    (apply_profile_weights b p f).adjusted_score ≤ 1 := by
  rw [apply_profile_weights_eq]
  exact round4_clamp_mem _

/-! ## Route aggregation (`backend/main.py`, `route`, lines 153–165)

Python's `sorted` is a stable ascending sort; on rationals it is modelled
by `List.insertionSort (· ≤ ·)`. -/

/-- `route()`: the Safest aggregate — `best_3 = sorted(scores)[2:]`,
then `min(sum(best_3) / len(best_3) * 1.05, 1.0)`. -/
def safestAgg (scores : List ℚ) : ℚ :=
  let best_3 := (List.insertionSort (· ≤ ·) scores).drop 2
  min (best_3.sum / (best_3.length : ℚ) * 1.05) 1.0

/-- `route()`: the Fastest aggregate — `sum(scores) / len(scores) * 0.88`. -/
def fastestAgg (scores : List ℚ) : ℚ :=
  scores.sum / (scores.length : ℚ) * 0.88

/-- `route()`: the Comfortable aggregate — `sum(scores) / len(scores) * 0.95`. -/
def comfortableAgg (scores : List ℚ) : ℚ :=
  scores.sum / (scores.length : ℚ) * 0.95

/-- C3 (amended): for every list of 5 per-waypoint adjusted scores the route
aggregates are: Safest = min(mean of the three highest scores × 1.05, 1.0)
(the two lowest dropped), Fastest = mean of all five × 0.88, Comfortable =
mean of all five × 0.95.  (The spec's numeric instance for
`[0.2,0.5,0.6,0.7,0.9]` evaluates to 0.77, not 0.777 — see the
counterexample.) -/
theorem c3_route_aggregation_formulas (scores : List ℚ) (h : scores.length = 5) :
    (∃ dropped kept : List ℚ,
      (dropped ++ kept).Perm scores ∧ dropped.length = 2 ∧ kept.length = 3 ∧
      (∀ x ∈ dropped, ∀ y ∈ kept, x ≤ y) ∧
      safestAgg scores = min (kept.sum / 3 * 1.05) 1.0) ∧
    fastestAgg scores = scores.sum / 5 * 0.88 ∧
    comfortableAgg scores = scores.sum / 5 * 0.95 := by
  refine ⟨?_, by rw [fastestAgg, h]; norm_num, by rw [comfortableAgg, h]; norm_num⟩
  set s := List.insertionSort (· ≤ ·) scores with hs
  have hperm : s.Perm scores := List.perm_insertionSort _ _
  have hlen : s.length = 5 := hperm.length_eq.trans h
  have hsorted : List.Sorted (· ≤ ·) s := List.sorted_insertionSort _ _
  refine ⟨s.take 2, s.drop 2, by rw [List.take_append_drop]; exact hperm, ?_, ?_, ?_, ?_⟩
  · rw [List.length_take, hlen]; decide
  · rw [List.length_drop, hlen]
  · intro x hx y hy
    have hsp : List.Pairwise (· ≤ ·) (s.take 2 ++ s.drop 2) := by
      rw [List.take_append_drop]; exact hsorted
    exact (List.pairwise_append.mp hsp).2.2 x hx y hy
  · rw [safestAgg, ← hs, List.length_drop, hlen]
    norm_num

/-- C3 counterexample: on the spec's own synthetic sequence
`[0.2, 0.5, 0.6, 0.7, 0.9]` the Safest aggregate is
`(0.6 + 0.7 + 0.9) / 3 × 1.05 = 0.77`, not `0.777` as the claim states. -/
theorem c3_route_aggregation_counterexample :
    safestAgg [0.2, 0.5, 0.6, 0.7, 0.9] = 0.77 ∧
    ¬ safestAgg [0.2, 0.5, 0.6, 0.7, 0.9] = 0.777 := by
  norm_num [safestAgg, List.insertionSort, List.orderedInsert]

theorem c3_route_aggregation_witness :
    ([0.2, 0.5, 0.6, 0.7, 0.9] : List ℚ).length = 5 ∧
    fastestAgg [0.2, 0.5, 0.6, 0.7, 0.9] =
      ([0.2, 0.5, 0.6, 0.7, 0.9] : List ℚ).sum / 5 * 0.88 :=
  ⟨by decide,
   (c3_route_aggregation_formulas [0.2, 0.5, 0.6, 0.7, 0.9] (by decide)).2.1⟩

/-! ## Safety model service and explainer (`backend/engine.py`)

`joblib.load` of `urban_sight_model.pkl` / `scaler.pkl` either yields the
three process-wide artifacts (model, scaler, SHAP explainer) or, on any
exception, leaves all three `None`.  We model the loaded bundle as abstract
functions and the process state as an `Option` of the bundle. -/

/-- The three artifacts loaded at process start, as abstract deterministic
functions fixed for the process lifetime. -/
structure LoadedArtifacts where
  modelFn : List ℚ → ℚ
  scalerFn : List ℚ → List ℚ
  explainerFn : List ℚ → Fin 8 → ℚ

/-- `engine.py` — `expected_cols`, the fixed eight-field model ordering. -/
def expected_cols : List String :=
  ["hour", "day_of_week", "lighting_score", "crowd_density",
   "historical_crime_index", "police_dist_km", "is_isolated", "near_transit"]

/-- `pd.DataFrame([feature_dict])[expected_cols]`: project the feature
dictionary onto the fixed eight-field ordering (lat/lng are dropped). -/
def projectCols (f : LocationFeatures) : List ℚ :=
  [(f.hour : ℚ), (f.day_of_week : ℚ), f.lighting_score, f.crowd_density,
   f.historical_crime_index, f.police_dist_km, (f.is_isolated : ℚ), (f.near_transit : ℚ)]

/-- `engine.py` — `feature_map.get(k, k)`: internal → display names. -/
def feature_map (k : String) : String :=
  if k == "lighting_score" then "street lighting"
  else if k == "historical_crime_index" then "historical crime rate"
  else if k == "crowd_density" then "crowd density"
  else if k == "police_dist_km" then "distance from nearest police station"
  else if k == "is_isolated" then "area isolation"
  else if k == "hour" then "time of day"
  else if k == "near_transit" then "proximity to transit hub"
  else if k == "day_of_week" then "day of week"
  else k

/-- The comparison realised by `np.argsort(abs_shap)` on the 8-element
array: ascending absolute value, equal values kept in original index order
(for arrays below the quicksort cutoff numpy performs a stable insertion
sort, so ties keep ascending index order). -/
def shapLe (c : Fin 8 → ℚ) (i j : Fin 8) : Prop :=
  |c i| < |c j| ∨ (|c i| = |c j| ∧ i ≤ j)

instance shapLeDecidable (c : Fin 8 → ℚ) : DecidableRel (shapLe c) := fun i j =>
  inferInstanceAs (Decidable (|c i| < |c j| ∨ (|c i| = |c j| ∧ i ≤ j)))

instance shapLeTotal (c : Fin 8 → ℚ) : IsTotal (Fin 8) (shapLe c) := by
  constructor
  intro a b
  rcases lt_trichotomy |c a| |c b| with h | h | h
  · exact Or.inl (Or.inl h)
  · rcases le_total a b with hab | hab
    · exact Or.inl (Or.inr ⟨h, hab⟩)
    · exact Or.inr (Or.inr ⟨h.symm, hab⟩)
  · exact Or.inr (Or.inl h)

instance shapLeTrans (c : Fin 8 → ℚ) : IsTrans (Fin 8) (shapLe c) := by
  constructor
  intro a b d hab hbd
  rcases hab with h1 | ⟨h1, h1'⟩ <;> rcases hbd with h2 | ⟨h2, h2'⟩
  · exact Or.inl (h1.trans h2)
  · exact Or.inl (h2 ▸ h1)
  · exact Or.inl (by rw [h1]; exact h2)
  · exact Or.inr ⟨h1.trans h2, h1'.trans h2'⟩

/-- `np.argsort(abs_shap)`: the indices `0..7` sorted by `shapLe`. -/
def shapOrder (c : Fin 8 → ℚ) : List (Fin 8) :=
  List.insertionSort (shapLe c) (List.finRange 8)

/-- `np.argsort(abs_shap)[-2:][::-1]`: the last two indices of the
ascending order, reversed. -/
def shapTopIndices (c : Fin 8 → ℚ) : List (Fin 8) :=
  ((shapOrder c).drop ((shapOrder c).length - 2)).reverse

/-- `f1_key = expected_cols[top_indices[0]]` (as an index). -/
def f1_key (c : Fin 8 → ℚ) : Fin 8 := (shapTopIndices c).getD 0 0

/-- `f2_key = expected_cols[top_indices[1]]` (as an index). -/
def f2_key (c : Fin 8 → ℚ) : Fin 8 := (shapTopIndices c).getD 1 0

/-- The display names of the two top-ranked features, in rank order. -/
def shapTopFeatureNames (c : Fin 8 → ℚ) : List String :=
  [feature_map (expected_cols.getD (f1_key c : ℕ) ""),
   feature_map (expected_cols.getD (f2_key c : ℕ) "")]

/-- The result record of `get_shap_explanation`. -/
structure ExplainResult where
  explanation : String
  top_features : List String
deriving DecidableEq

/-- `engine.py` — `get_shap_explanation(feature_dict, safety_score)`. -/
def get_shap_explanation (art : Option LoadedArtifacts)
    (feature_dict : LocationFeatures) (safety_score : ℚ) : ExplainResult :=
  match art with
  | none => { explanation := "Model not loaded.", top_features := [] }
  | some A =>
    let X_scaled := A.scalerFn (projectCols feature_dict)
    let shap_values := A.explainerFn X_scaled
    let f1 := feature_map (expected_cols.getD (f1_key shap_values : ℕ) "")
    let f2 := feature_map (expected_cols.getD (f2_key shap_values : ℕ) "")
    let explanation :=
      if safety_score < 0.4 then
        "Safety concern: " ++ f1 ++ " and " ++ f2 ++ " are the main risk factors."
      else if safety_score ≤ 0.7 then
        "Moderate safety: Caution advised due to " ++ f1 ++ "."
      else
        "This area is relatively safe. " ++ f1 ++ " contributes positively."
    { explanation := explanation, top_features := [f1, f2] }

/-- `engine.py` — `get_recommendations(category, feature_dict)`. -/
def get_recommendations (category : String) (_feature_dict : LocationFeatures) :
    List String :=
  if category == "Low" then
    ["Avoid poorly lit streets when walking.",
     "Consider traveling with a larger group.",
     "Use transit options with safer hubs nearby."]
  else if category == "Medium" then
    ["Stay alert in less crowded areas.",
     "Keep emergency contacts readily accessible."]
  else
    ["Standard positive precautions are sufficient."]

/-- `engine.py` — `predict(feature_dict)`: base safety score and category;
fixed fallback `(0.5, "Medium")` when the model artifact is not loaded. -/
def predict (art : Option LoadedArtifacts) (feature_dict : LocationFeatures) :
    ℚ × String :=
  match art with
  | none => (0.5, "Medium")
  | some A =>
    let X_scaled := A.scalerFn (projectCols feature_dict)
    let score := A.modelFn X_scaled
    let category := if score < 0.4 then "Low" else if score ≤ 0.7 then "Medium" else "High"
    (score, category)

/-- C4 (amended): for every attribution vector the explainer selects the two
fields of largest absolute contribution, ordered by descending absolute
value, but ties are broken by *reverse* original field order: among tied
fields the later field in (hour, day_of_week, lighting_score, crowd_density,
historical_crime_index, police_dist_km, is_isolated, near_transit) is
selected/ranked first, because the code reverses a stable ascending argsort
(`np.argsort(abs)[-2:][::-1]`).  `shapLe c j k` states that `k` ranks at
least as high as `j`: larger absolute value, or equal absolute value and
later field order. -/
theorem c4_top_feature_tie_break (c : Fin 8 → ℚ) :
    f1_key c ≠ f2_key c ∧
    (∀ j : Fin 8, j ≠ f1_key c → shapLe c j (f1_key c)) ∧
    (∀ j : Fin 8, j ≠ f1_key c → j ≠ f2_key c → shapLe c j (f2_key c)) ∧
    shapTopFeatureNames c =
      [feature_map (expected_cols.getD (f1_key c : ℕ) ""),
       feature_map (expected_cols.getD (f2_key c : ℕ) "")] := by
  have hlen : (shapOrder c).length = 8 := by
    rw [shapOrder, (List.perm_insertionSort _ _).length_eq, List.length_finRange]
  have hsorted : (shapOrder c).Sorted (shapLe c) := List.sorted_insertionSort _ _
  have hnodup : (shapOrder c).Nodup :=
    ((List.perm_insertionSort _ _).nodup_iff).mpr (List.nodup_finRange 8)
  have h6 : 6 < (shapOrder c).length := by omega
  have h7 : 7 < (shapOrder c).length := by omega
  have hdrop : (shapOrder c).drop 6 = [(shapOrder c)[6], (shapOrder c)[7]] := by
    rw [List.drop_eq_getElem_cons h6, List.drop_eq_getElem_cons h7,
      List.drop_eq_nil_of_le (by omega)]
  have htop : shapTopIndices c = [(shapOrder c)[7], (shapOrder c)[6]] := by
    rw [shapTopIndices, hlen]
    norm_num [hdrop]
  have hf1 : f1_key c = (shapOrder c)[7] := by rw [f1_key, htop]; rfl
  have hf2 : f2_key c = (shapOrder c)[6] := by rw [f2_key, htop]; rfl
  have hne : f1_key c ≠ f2_key c := by
    rw [hf1, hf2]
    intro he
    have : (7 : ℕ) = 6 := hnodup.getElem_inj_iff.mp he
    omega
  have hmem : ∀ j : Fin 8, j ∈ shapOrder c := fun j =>
    ((List.perm_insertionSort _ _).mem_iff).mpr (List.mem_finRange j)
  have hmax1 : ∀ j : Fin 8, j ≠ f1_key c → shapLe c j (f1_key c) := by
    intro j hj
    obtain ⟨k, hk, hkj⟩ := List.mem_iff_getElem.mp (hmem j)
    rcases Nat.lt_or_ge k 7 with hk7 | hk7
    · have hrel := hsorted.rel_get_of_lt (a := ⟨k, hk⟩) (b := ⟨7, h7⟩)
        (Fin.mk_lt_mk.mpr hk7)
      simp only [List.get_eq_getElem] at hrel
      rw [hf1, ← hkj]
      exact hrel
    · have hke : k = 7 := by rw [hlen] at hk; omega
      subst hke
      rw [hf1] at hj
      exact absurd hkj.symm hj
  have hmax2 : ∀ j : Fin 8, j ≠ f1_key c → j ≠ f2_key c → shapLe c j (f2_key c) := by
    intro j hj1 hj2
    obtain ⟨k, hk, hkj⟩ := List.mem_iff_getElem.mp (hmem j)
    rcases Nat.lt_or_ge k 6 with hk6 | hk6
    · have hrel := hsorted.rel_get_of_lt (a := ⟨k, hk⟩) (b := ⟨6, h6⟩)
        (Fin.mk_lt_mk.mpr hk6)
      simp only [List.get_eq_getElem] at hrel
      rw [hf2, ← hkj]
      exact hrel
    · have hk8 : k < 8 := by rw [hlen] at hk; exact hk
      rcases Nat.lt_or_ge k 7 with hk7 | hk7
      · have hke : k = 6 := by omega
        subst hke
        rw [hf2] at hj2
        exact absurd hkj.symm hj2
      · have hke : k = 7 := by omega
        subst hke
        rw [hf1] at hj1
        exact absurd hkj.symm hj1
  exact ⟨hne, hmax1, hmax2, rfl⟩

/-- A concrete attribution vector with the two largest contributions tied in
absolute value on the first two fields (hour and day_of_week). -/
def tiedContrib : Fin 8 → ℚ := ![1, -1, 0, 0, 0, 0, 0, 0]

/-- A concrete attribution vector with pairwise distinct absolute values. -/
def distinctContrib : Fin 8 → ℚ := fun j => ((j : ℕ) : ℚ)

/-- C4 counterexample: hour (field 0) and day_of_week (field 1) have equal
absolute contribution, yet the explainer ranks "day of week" first — the
later field wins the tie, not the earlier one as the claim states. -/
theorem c4_top_feature_tie_break_counterexample :
    |tiedContrib 0| = |tiedContrib 1| ∧
    shapTopFeatureNames tiedContrib = ["day of week", "time of day"] ∧
    ¬ shapTopFeatureNames tiedContrib = ["time of day", "day of week"] := by
  decide

theorem c4_top_feature_tie_break_witness :
    (0 : Fin 8) ≠ f1_key distinctContrib ∧
    shapLe distinctContrib 0 (f1_key distinctContrib) :=
  ⟨by decide, (c4_top_feature_tie_break distinctContrib).2.1 0 (by decide)⟩

/-- C5: in fallback mode (model artifact failed to load at process start)
`predict` returns exactly `raw_score = 0.5` with category `"Medium"` for
every input, and the explainer returns exactly
`{"explanation": "Model not loaded.", "top_features": []}` for every input;
both are total functions, so neither raises an error. -/
theorem c5_fallback_mode (f : LocationFeatures) (s : ℚ) :
    predict none f = (0.5, "Medium") ∧
    get_shap_explanation none f s =
      { explanation := "Model not loaded.", top_features := [] } :=
  ⟨rfl, rfl⟩

/-! ## The HTTP surface (`backend/main.py`) -/

/-- The response of `GET /health`. -/
structure HealthResponse where
  status : String
  model : String
  version : String
deriving DecidableEq

/-- `main.py` — `health()`: a constant response that never consults the
artifact state (the handler body mentions neither `model` nor `scaler`). -/
def health (_art : Option LoadedArtifacts) : HealthResponse :=
  { status := "ok", model := "loaded", version := "1.0.0" }

/-- C10: `/health` returns the constant
`{status: "ok", model: "loaded", version: "1.0.0"}` regardless of the
artifact state — in particular it still reports `model: "loaded"` in
degraded fallback mode (`none`). -/
theorem c10_health_constant (art : Option LoadedArtifacts) :
    health art = { status := "ok", model := "loaded", version := "1.0.0" } ∧
    health none = { status := "ok", model := "loaded", version := "1.0.0" } :=
  ⟨rfl, rfl⟩

/-- `main.py` — `get_category_color(score)`. -/
def get_category_color (score : ℚ) : String × String :=
  if score < 0.4 then ("Low", "#ef4444")
  else if score ≤ 0.7 then ("Medium", "#f97316")
  else ("High", "#22c55e")

/-- One element of the `/heatmap` response's `points` list. -/
structure HeatPoint where
  lat : ℚ
  lng : ℚ
  safety_score : ℚ
  color_code : String
deriving DecidableEq

/-- `np.linspace(lo, hi, 10)`: ten evenly spaced samples including both
endpoints (in exact arithmetic `lo + (hi - lo) * 9 / 9 = hi`, which is the
value numpy assigns to the final sample). -/
def linspace10 (lo hi : ℚ) : List ℚ :=
  (List.range 10).map (fun (i : ℕ) => lo + (hi - lo) * (i : ℚ) / 9)

/-- `main.py` — the `base_loc` dictionary of `heatmap`:
`LocationFeatures(lat=0, lng=0, hour=hour, day_of_week=now.weekday()).dict()`. -/
def heatmapBase (hour : ℤ) (nowWeekday : ℤ) : LocationFeatures :=
  { lat := 0, lng := 0, hour := hour, day_of_week := nowWeekday }

/-- The body of `heatmap`'s inner loop: copy `base_loc`, set `lat`/`lng`,
score with the raw Safety Model Service only (`predict`), and build the
response dictionary — no personalization, no explanation. -/
def heatPointAt (art : Option LoadedArtifacts) (hour nowWeekday : ℤ)
    (lat lng : ℚ) : HeatPoint :=
  let f := { heatmapBase hour nowWeekday with lat := lat, lng := lng }
  let score := (predict art f).1
  let col := (get_category_color score).2
  { lat := lat, lng := lng, safety_score := round4 score, color_code := col }

/-- `main.py` — `heatmap(min_lat, max_lat, min_lng, max_lng, hour)`.
`nowHour`/`nowWeekday` stand for the wall clock read once per request;
the sentinel `hour == -1` resolves to `nowHour`.  Returns the `points`
list (row-major: outer loop over `lats`, inner over `lngs`) and `count`. -/
def heatmap (art : Option LoadedArtifacts)
    (min_lat max_lat min_lng max_lng : ℚ) (hour : ℤ)
    (nowHour nowWeekday : ℤ) : List HeatPoint × ℕ :=
  let hour := if hour == -1 then nowHour else hour
  let points :=
    (linspace10 min_lat max_lat).flatMap (fun lat =>
      (linspace10 min_lng max_lng).map (fun lng =>
        heatPointAt art hour nowWeekday lat lng))
  (points, points.length)

lemma predict_ignores_latlng (art : Option LoadedArtifacts)
    (f : LocationFeatures) (a b : ℚ) :
    predict art { f with lat := a, lng := b } = predict art f := by
  cases art <;> rfl

lemma flatMap_map_getElem {α β γ : Type} (xs : List α) (ys : List β)
    (g : α → β → γ) (i j : ℕ) (hi : i < xs.length) (hj : j < ys.length) :
    (xs.flatMap (fun x => ys.map (g x)))[i * ys.length + j]? =
      some (g (xs.get ⟨i, hi⟩) (ys.get ⟨j, hj⟩)) := by
  induction xs generalizing i with
  | nil => simp at hi
  | cons x xs ih =>
    rw [List.flatMap_cons]
    cases i with
    | zero =>
      rw [Nat.zero_mul, Nat.zero_add, List.getElem?_append_left (by simpa using hj)]
      simp [List.getElem?_map, List.getElem?_eq_getElem hj]
    | succ i =>
      have hi' : i < xs.length := by simpa using hi
      have harith : (i + 1) * ys.length + j =
          (ys.map (g x)).length + (i * ys.length + j) := by
        simp [List.length_map]; ring
      rw [harith, List.getElem?_append_right (by omega)]
      simpa using ih i hi'

lemma linspace10_length (lo hi : ℚ) : (linspace10 lo hi).length = 10 := by
  rw [linspace10, List.length_map, List.length_range]

lemma linspace10_get (lo hi : ℚ) (i : ℕ) (h : i < (linspace10 lo hi).length) :
    (linspace10 lo hi).get ⟨i, h⟩ = lo + (hi - lo) * (i : ℚ) / 9 := by
  simp [linspace10]

/-- C7: for every bounding box and hour the grid sampler returns exactly 100
points (`count = 100`), forming the 10×10 evenly spaced inclusive grid in
row-major order (outer loop over lat, inner over lng): the point at index
`i*10 + j` has `lat = min_lat + (max_lat-min_lat)·i/9`,
`lng = min_lng + (max_lng-min_lng)·j/9` and is scored by the raw Safety
Model Service only (`heatPointAt` is built from `predict` alone — no
personalization, no explanation); for bbox `(12.83, 13.14, 77.46, 77.78)`
point 0 is `(12.83, 77.46)` and point 99 is `(13.14, 77.78)`. -/
theorem c7_heatmap_grid (art : Option LoadedArtifacts)
    (min_lat max_lat min_lng max_lng : ℚ) (hour : ℤ) (nowHour nowWeekday : ℤ) :
    (heatmap art min_lat max_lat min_lng max_lng hour nowHour nowWeekday).1.length = 100 ∧
    (heatmap art min_lat max_lat min_lng max_lng hour nowHour nowWeekday).2 = 100 ∧
    (∀ i j : Fin 10,
      (heatmap art min_lat max_lat min_lng max_lng hour nowHour nowWeekday).1[(i : ℕ) * 10 + (j : ℕ)]? =
        some (heatPointAt art (if hour == -1 then nowHour else hour) nowWeekday
          (min_lat + (max_lat - min_lat) * ((i : ℕ) : ℚ) / 9)
          (min_lng + (max_lng - min_lng) * ((j : ℕ) : ℚ) / 9))) ∧
    ((heatmap art 12.83 13.14 77.46 77.78 hour nowHour nowWeekday).1[0]?.map
        (fun p => (p.lat, p.lng)) = some ((12.83 : ℚ), (77.46 : ℚ))) ∧
    ((heatmap art 12.83 13.14 77.46 77.78 hour nowHour nowWeekday).1[99]?.map
        (fun p => (p.lat, p.lng)) = some ((13.14 : ℚ), (77.78 : ℚ))) := by
  have hidx : ∀ (a b c d : ℚ) (i j : Fin 10),
      (heatmap art a b c d hour nowHour nowWeekday).1[(i : ℕ) * 10 + (j : ℕ)]? =
        some (heatPointAt art (if hour == -1 then nowHour else hour) nowWeekday
          (a + (b - a) * ((i : ℕ) : ℚ) / 9) (c + (d - c) * ((j : ℕ) : ℚ) / 9)) := by
    intro a b c d i j
    have hi : (i : ℕ) < (linspace10 a b).length := by rw [linspace10_length]; exact i.isLt
    have hj : (j : ℕ) < (linspace10 c d).length := by rw [linspace10_length]; exact j.isLt
    have h := flatMap_map_getElem (linspace10 a b) (linspace10 c d)
      (fun lat lng => heatPointAt art (if hour == -1 then nowHour else hour) nowWeekday lat lng)
      (i : ℕ) (j : ℕ) hi hj
    rw [linspace10_get a b _ hi, linspace10_get c d _ hj] at h
    exact h
  have hlen : ∀ (a b c d : ℚ),
      (heatmap art a b c d hour nowHour nowWeekday).1.length = 100 := by
    intro a b c d
    rfl
  refine ⟨hlen _ _ _ _, hlen _ _ _ _, hidx _ _ _ _, ?_, ?_⟩
  · have h0 : (heatmap art 12.83 13.14 77.46 77.78 hour nowHour nowWeekday).1[(0 : ℕ)]? =
        some (heatPointAt art (if hour == -1 then nowHour else hour) nowWeekday
          (12.83 + (13.14 - 12.83) * ((0 : ℕ) : ℚ) / 9)
          (77.46 + (77.78 - 77.46) * ((0 : ℕ) : ℚ) / 9)) :=
      hidx 12.83 13.14 77.46 77.78 ⟨0, by norm_num⟩ ⟨0, by norm_num⟩
    rw [h0]
    simp only [Option.map_some, heatPointAt]
    norm_num
  · have h99 : (heatmap art 12.83 13.14 77.46 77.78 hour nowHour nowWeekday).1[(99 : ℕ)]? =
        some (heatPointAt art (if hour == -1 then nowHour else hour) nowWeekday
          (12.83 + (13.14 - 12.83) * ((9 : ℕ) : ℚ) / 9)
          (77.46 + (77.78 - 77.46) * ((9 : ℕ) : ℚ) / 9)) :=
      hidx 12.83 13.14 77.46 77.78 ⟨9, by norm_num⟩ ⟨9, by norm_num⟩
    rw [h99]
    simp only [Option.map_some, heatPointAt]
    norm_num

/-- C9: within a single heatmap request all returned grid points carry an
identical `safety_score` and identical `color_code`: the model input is the
projection onto the eight model-facing fields, which excludes `lat`/`lng`,
and only `lat`/`lng` vary across the grid. -/
theorem c9_heatmap_uniform_scores (art : Option LoadedArtifacts)
    (a b c d : ℚ) (hour nowHour nowWeekday : ℤ) (i j : ℕ) (p q : HeatPoint)
    (hp : (heatmap art a b c d hour nowHour nowWeekday).1[i]? = some p)
    (hq : (heatmap art a b c d hour nowHour nowWeekday).1[j]? = some q) :
    p.safety_score = q.safety_score ∧ p.color_code = q.color_code := by
  have key : ∀ r : HeatPoint, r ∈ (heatmap art a b c d hour nowHour nowWeekday).1 →
      r.safety_score = round4 ((predict art
        (heatmapBase (if hour == -1 then nowHour else hour) nowWeekday)).1) ∧
      r.color_code = (get_category_color ((predict art
        (heatmapBase (if hour == -1 then nowHour else hour) nowWeekday)).1)).2 := by
    intro r hr
    simp only [heatmap] at hr
    obtain ⟨lat, hlat, hr2⟩ := List.mem_flatMap.mp hr
    obtain ⟨lng, hlng, rfl⟩ := List.mem_map.mp hr2
    unfold heatPointAt
    rw [predict_ignores_latlng]
    exact ⟨rfl, rfl⟩
  have kp := key p (List.getElem?_mem hp)
  have kq := key q (List.getElem?_mem hq)
  exact ⟨kp.1.trans kq.1.symm, kp.2.trans kq.2.symm⟩

/-- The heatmap grid point at index 0 for `heatmap none 0 1 0 1 10 0 0`. -/
def gridP0 : HeatPoint :=
  heatPointAt none 10 0 (0 + (1 - 0) * ((0 : ℕ) : ℚ) / 9) (0 + (1 - 0) * ((0 : ℕ) : ℚ) / 9)

/-- The heatmap grid point at index 11 for `heatmap none 0 1 0 1 10 0 0`. -/
def gridP11 : HeatPoint :=
  heatPointAt none 10 0 (0 + (1 - 0) * ((1 : ℕ) : ℚ) / 9) (0 + (1 - 0) * ((1 : ℕ) : ℚ) / 9)

theorem c9_heatmap_uniform_scores_witness :
    ((heatmap none 0 1 0 1 10 0 0).1[(0 : ℕ)]? = some gridP0 ∧
     (heatmap none 0 1 0 1 10 0 0).1[(11 : ℕ)]? = some gridP11) ∧
    (gridP0.safety_score = gridP11.safety_score ∧
     gridP0.color_code = gridP11.color_code) := by
  have hlat0 : (0 : ℕ) < (linspace10 (0 : ℚ) 1).length := by
    rw [linspace10_length]; norm_num
  have hlat1 : (1 : ℕ) < (linspace10 (0 : ℚ) 1).length := by
    rw [linspace10_length]; norm_num
  have hd1 : (heatmap none 0 1 0 1 10 0 0).1[(0 : ℕ)]? = some gridP0 := by
    have h := flatMap_map_getElem (linspace10 0 1) (linspace10 0 1)
      (fun lat lng => heatPointAt none 10 0 lat lng) 0 0 hlat0 hlat0
    rw [linspace10_get _ _ _ hlat0] at h
    exact h
  have hd2 : (heatmap none 0 1 0 1 10 0 0).1[(11 : ℕ)]? = some gridP11 := by
    have h := flatMap_map_getElem (linspace10 0 1) (linspace10 0 1)
      (fun lat lng => heatPointAt none 10 0 lat lng) 1 1 hlat1 hlat1
    rw [linspace10_get _ _ _ hlat1] at h
    exact h
  exact ⟨⟨hd1, hd2⟩,
    c9_heatmap_uniform_scores none 0 1 0 1 10 0 0 0 11 gridP0 gridP11 hd1 hd2⟩

/-- The response record of `POST /analyze`. -/
structure AnalyzeResponse where
  safety_score : ℚ
  adjusted_score : ℚ
  category : String
  color_code : String
  explanation : String
  top_features : List String
  recommendations : List String
  adjustments_applied : List String
deriving DecidableEq

/-- `main.py` — `analyze`'s sentinel resolution: `hour == -1` becomes
`now.hour`, `day_of_week == -1` becomes `now.weekday()`. -/
def resolveLocation (nowHour nowWeekday : ℤ) (loc : LocationFeatures) :
    LocationFeatures :=
  let loc := if loc.hour == -1 then { loc with hour := nowHour } else loc
  if loc.day_of_week == -1 then { loc with day_of_week := nowWeekday } else loc

/-- `main.py` — `analyze(request)`: resolve sentinels against the wall clock
(`nowHour`, `nowWeekday`), predict, personalize, categorize, explain,
recommend, and assemble the response. -/
def analyze (art : Option LoadedArtifacts) (nowHour nowWeekday : ℤ)
    (request : AnalyzeRequest) : AnalyzeResponse :=
  let feature_dict := resolveLocation nowHour nowWeekday request.location
  let base_score := (predict art feature_dict).1
  let pers := apply_profile_weights base_score request.profile feature_dict
  let adjusted_score := pers.adjusted_score
  let cc := get_category_color adjusted_score
  let shap_res := get_shap_explanation art feature_dict adjusted_score
  let recommendations := get_recommendations cc.1 feature_dict
  { safety_score := round4 base_score,
    adjusted_score := adjusted_score,
    category := cc.1,
    color_code := cc.2,
    explanation := shap_res.explanation,
    top_features := shap_res.top_features,
    recommendations := recommendations,
    adjustments_applied := pers.adjustments_applied }

lemma resolveLocation_no_sentinel (nowHour nowWeekday : ℤ)
    (loc : LocationFeatures) (h1 : loc.hour ≠ -1) (h2 : loc.day_of_week ≠ -1) :
    resolveLocation nowHour nowWeekday loc = loc := by
  simp [resolveLocation, beq_iff_eq, h1, h2]

/-- C8: `/analyze` is deterministic across runs when neither sentinel is
used: for every request with `hour ≠ -1` and `day_of_week ≠ -1`, and the
same loaded artifact bundle, two invocations under different wall clocks
produce identical responses in every field (the response is a pure function
of request and artifacts). -/
theorem c8_analyze_deterministic (art : Option LoadedArtifacts)
    (nowHour nowWeekday nowHour2 nowWeekday2 : ℤ) (request : AnalyzeRequest)
    (h1 : request.location.hour ≠ -1) (h2 : request.location.day_of_week ≠ -1) :
    analyze art nowHour nowWeekday request = analyze art nowHour2 nowWeekday2 request := by
  unfold analyze
  rw [resolveLocation_no_sentinel _ _ _ h1 h2,
    resolveLocation_no_sentinel _ _ _ h1 h2]

/-- A concrete `/analyze` request with both sentinels avoided. -/
def fixedRequest : AnalyzeRequest :=
  { location := { lat := 0, lng := 0, hour := 10, day_of_week := 2 },
    profile := {} }

theorem c8_analyze_deterministic_witness :
    (fixedRequest.location.hour ≠ -1 ∧ fixedRequest.location.day_of_week ≠ -1) ∧
    analyze none 1 2 fixedRequest = analyze none 3 4 fixedRequest :=
  ⟨by decide,
   c8_analyze_deterministic none 1 2 3 4 fixedRequest (by decide) (by decide)⟩

/-! ## Route waypoint synthesis (`backend/main.py`, `route`, lines 104–123)

The geometry uses `math.sqrt`/`math.sin`, modelled over `ℝ`. -/

/-- `backend/models.py` — `RoutePoint {lat, lng}`. -/
structure RoutePoint where
  lat : ℝ
  lng : ℝ

/-- `main.py` — the waypoint loop body of `route()`: linear interpolation
from `origin` toward `dest` at fraction `i/4`, plus `bow = sin(frac·π)·detour`
times the vector `(nx, ny) = (-dy, dx)/dist` (defined as `(0, 0)` when
`dist == 0`), where `nx` is added to `lat` and `ny` to `lng`. -/
noncomputable def routeWaypoint (origin dest : RoutePoint) (detour : ℝ)
    (i : ℕ) : RoutePoint :=
  let dx := dest.lng - origin.lng
  let dy := dest.lat - origin.lat
  let dist := Real.sqrt (dx * dx + dy * dy)
  let nx : ℝ := if dist = 0 then 0 else -dy / dist
  let ny : ℝ := if dist = 0 then 0 else dx / dist
  let num_points : ℕ := 5
  let frac : ℝ := (i : ℝ) / ((num_points : ℝ) - 1)
  let bow := Real.sin (frac * Real.pi) * detour
  { lat := origin.lat + dy * frac + nx * bow,
    lng := origin.lng + dx * frac + ny * bow }

/-- C6: the degenerate cases of the claim hold — with `origin = dest` every
waypoint equals the origin (no division by zero), and with `detour = 0`
every waypoint lies exactly on the straight-line interpolation — but the
offset is *not* perpendicular to the segment: for origin `(0,0)`,
destination `(lat 1, lng 0)` and the Safest profile (`detour = 0.01`),
waypoint 2 is `(0.49, 0)` — displaced *along* the segment (the dot product
of the displacement from the midpoint with the direction vector is
`-1/100 ≠ 0`), contradicting the claimed perpendicular unit-normal offset
(and the code's own "orthogonal vector for bowing effect" comment). -/
theorem c6_route_waypoint_geometry :
    (∀ (p : RoutePoint) (detour : ℝ) (i : ℕ), routeWaypoint p p detour i = p) ∧
    (∀ (o d : RoutePoint) (i : ℕ),
      routeWaypoint o d 0 i =
        { lat := o.lat + (d.lat - o.lat) * ((i : ℝ) / 4),
          lng := o.lng + (d.lng - o.lng) * ((i : ℝ) / 4) }) ∧
    (routeWaypoint ⟨0, 0⟩ ⟨1, 0⟩ (1/100) 2).lat = 49/100 ∧
    (routeWaypoint ⟨0, 0⟩ ⟨1, 0⟩ (1/100) 2).lng = 0 ∧
    ((routeWaypoint ⟨0, 0⟩ ⟨1, 0⟩ (1/100) 2).lat - (1 : ℝ) / 2) * ((1 : ℝ) - 0) +
      ((routeWaypoint ⟨0, 0⟩ ⟨1, 0⟩ (1/100) 2).lng - 0) * ((0 : ℝ) - 0) ≠ 0 := by
  have hsin : Real.sin (((2 : ℕ) : ℝ) / (((5 : ℕ) : ℝ) - 1) * Real.pi) = 1 := by
    have hfrac : ((2 : ℕ) : ℝ) / (((5 : ℕ) : ℝ) - 1) * Real.pi = Real.pi / 2 := by
      push_cast; ring
    rw [hfrac, Real.sin_pi_div_two]
  have hdist : Real.sqrt (((0 : ℝ) - 0) * ((0 : ℝ) - 0) + ((1 : ℝ) - 0) * ((1 : ℝ) - 0)) = 1 := by
    norm_num
  have hlat : (routeWaypoint ⟨0, 0⟩ ⟨1, 0⟩ (1/100) 2).lat = 49/100 := by
    simp only [routeWaypoint, hdist, hsin]
    norm_num
  have hlng : (routeWaypoint ⟨0, 0⟩ ⟨1, 0⟩ (1/100) 2).lng = 0 := by
    simp only [routeWaypoint, hdist, hsin]
    norm_num
  refine ⟨?_, ?_, hlat, hlng, ?_⟩
  · intro p detour i
    cases p
    simp [routeWaypoint]
  · intro o d i
    cases o; cases d
    simp only [routeWaypoint, mul_zero, zero_mul, add_zero]
    norm_num
  · rw [hlat, hlng]
    norm_num

end UrbanSight
